import Mathlib

set_option maxRecDepth 8192

/-!
Verification development for the indy-news aggregation service.

The definitions below are a shallow embedding of the Python source under
`src/`: `api/youtube.py`, `api/x.py`, `api/substack.py`, `api/store.py` and
`lib/utils.py`.  Pure Python functions become Lean functions; Python
exceptions become `Except PyErr`; external collaborators (network fetches,
third-party parsing libraries) become explicit function parameters of the
pipeline definitions.  Machine integers do not overflow in any of the code
involved, so Python `int` is embedded as `Int`/`Nat` directly.
-/

namespace IndyNews

/-- Exceptions raised by the embedded code, mirroring the Python exception
classes that appear in the sources (`TypeError` from `len(None)`,
`ValueError`, FastAPI's `HTTPException`, `ConnectionError`, `TimeoutError`,
`AttributeError` from `None.timetuple()`). -/
inductive PyErr where
  | typeError
  | valueError (msg : String)
  | httpException (status : Nat) (detail : String)
  | connectionError
  | timeoutError
  | attributeError
deriving DecidableEq

/-- Embedding of Python `str.lower()` (the identifiers handled by the code
are ASCII, where `str.lower()` agrees with `Char.toLower`). -/
def pyLower (s : String) : String :=
  String.mk (s.data.map Char.toLower)

/-- Membership of one character list in another as a contiguous infix,
written as a Bool-valued function (embedding of Python's `sub in s`
substring test on the underlying character lists). -/
def listContains {α : Type} [DecidableEq α] (needle : List α) : List α → Bool
  | [] => needle.isEmpty
  | a :: rest => needle.isPrefixOf (a :: rest) || listContains needle rest

/-- Embedding of the Python substring test `needle in hay` on `str`. -/
def pyContains (needle hay : String) : Bool :=
  listContains needle.data hay.data

/-- Truthiness of an optional string, as Python evaluates it: `None` and
`""` are falsy, all other strings truthy. -/
def truthyStr : Option String → Bool
  | none => false
  | some s => s ≠ ""

/-- One pass of the replacement loop of `pyReplace`, with explicit fuel
(each step consumes at least one character, so fuel `l.length` suffices;
the fuel-exhaustion branch is unreachable). -/
def replaceGo (pattern repl : List Char) : Nat → List Char → List Char
  | _, [] => []
  | 0, l => l
  | fuel + 1, a :: rest =>
    match pattern.isPrefixOf? (a :: rest) with
    | some remainder => repl ++ replaceGo pattern repl fuel remainder
    | none => a :: replaceGo pattern repl fuel rest

/-- Embedding of Python `s.replace(pattern, repl)`: replace all
(left-to-right, non-overlapping) occurrences.  The sources only call it
with non-empty patterns; an empty pattern leaves the string unchanged. -/
def pyReplace (s pattern repl : String) : String :=
  if pattern = "" then s
  else String.mk (replaceGo pattern.data repl.data s.data.length s.data)

/-- Splitting a character list on a separator character. -/
def splitChar (sep : Char) : List Char → List (List Char)
  | [] => [[]]
  | c :: rest =>
    match splitChar sep rest with
    | [] => [[c]]
    | g :: gs => if c = sep then [] :: g :: gs else (c :: g) :: gs

/-- Embedding of Python `s.split(sep)` for a one-character separator (the
only form the sources use: `","`, `" "`, `"-"`). -/
def pySplit (s : String) (sep : Char) : List String :=
  (splitChar sep s.data).map String.mk

/-- Embedding of Python `s.strip()` (the strings involved only carry the
basic whitespace characters). -/
def pyTrim (s : String) : String :=
  String.mk
    (((s.data.dropWhile Char.isWhitespace).reverse.dropWhile
      Char.isWhitespace).reverse)

/-- Value of a non-empty all-digit character sequence, `none` otherwise
(the digit-group semantics of the `strptime` format regex and of
`dateparser`'s numbers). -/
def digitsToNat? (l : List Char) : Option Nat :=
  if l ≠ [] && l.all Char.isDigit then
    some (l.foldl (fun acc c => acc * 10 + (c.toNat - 48)) 0)
  else none

/-! ### The Video model and its serialization (`api/youtube.py`)

`_filter_by_char_cap` measures `len(json.dumps([vid.model_dump_json() for
vid in videos]))`.  We embed pydantic's `model_dump_json` (compact JSON,
declaration field order, `null` for `None`, non-ASCII kept raw) and
`json.dumps` (default separators `", "`, `ensure_ascii=True`). -/

/-- Video model from `api/youtube.py` (class `Video`). The commented-out
`thumbnails` field of the source is likewise absent here. -/
structure Video where
  id : String
  title : String
  short_desc : String
  channel : String
  duration : String
  views : String
  publish_time : String
  url_suffix : String
  long_desc : Option String := none
  transcript : Option String := none
deriving DecidableEq

/-- Four lowercase hexadecimal digits of `n % 65536`, most significant
first (the digits of a `\uXXXX` escape). -/
def hex4 (n : Nat) : List Char :=
  let dig := fun (k : Nat) => (Nat.digitChar (n / k % 16))
  [dig 4096, dig 256, dig 16, dig 1]

/-- The six characters of a JSON `\uXXXX` escape for code point `n`. -/
def uEscape (n : Nat) : List Char :=
  '\\' :: 'u' :: hex4 n

/-- Escape of a single character inside a JSON string literal.  With
`ensureAscii := false` this is the escaping performed by pydantic's
`model_dump_json` (serde_json): quote, backslash, and control characters
only.  With `ensureAscii := true` it is Python `json.dumps` default
escaping, which additionally escapes every character above U+007E,
emitting surrogate pairs for astral code points. -/
def escChar (ensureAscii : Bool) (c : Char) : List Char :=
  if c = '"' then ['\\', '"']
  else if c = '\\' then ['\\', '\\']
  else if c.toNat = 8 then ['\\', 'b']
  else if c.toNat = 9 then ['\\', 't']
  else if c.toNat = 10 then ['\\', 'n']
  else if c.toNat = 12 then ['\\', 'f']
  else if c.toNat = 13 then ['\\', 'r']
  else if c.toNat < 32 then uEscape c.toNat
  else if ensureAscii && decide (126 < c.toNat) then
    if c.toNat ≤ 0xFFFF then uEscape c.toNat
    else
      let m := c.toNat - 0x10000
      uEscape (0xD800 + m / 0x400) ++ uEscape (0xDC00 + m % 0x400)
  else [c]

/-- JSON string literal (with quotes) for `s`, under the given escaping
regime. -/
def jsonQuote (ensureAscii : Bool) (s : String) : String :=
  String.mk ('"' :: (s.data.map (escChar ensureAscii)).flatten ++ ['"'])

/-- A JSON string field of the compact object serialization. -/
def jsonStrField (name : String) (v : String) : String :=
  jsonQuote false name ++ ":" ++ jsonQuote false v

/-- A JSON optional-string field of the compact object serialization
(`null` for `None`). -/
def jsonOptField (name : String) (v : Option String) : String :=
  jsonQuote false name ++ ":" ++ (match v with
    | none => "null"
    | some s => jsonQuote false s)

/-- Embedding of `vid.model_dump_json()` for the `Video` model: a compact
JSON object in field declaration order. -/
def modelDumpJson (v : Video) : String :=
  "\x7b" ++ String.intercalate ","
    [ jsonStrField "id" v.id
    , jsonStrField "title" v.title
    , jsonStrField "short_desc" v.short_desc
    , jsonStrField "channel" v.channel
    , jsonStrField "duration" v.duration
    , jsonStrField "views" v.views
    , jsonStrField "publish_time" v.publish_time
    , jsonStrField "url_suffix" v.url_suffix
    , jsonOptField "long_desc" v.long_desc
    , jsonOptField "transcript" v.transcript
    ] ++ "\x7d"

/-- Embedding of `json.dumps([vid.model_dump_json() for vid in videos])`:
a JSON array of strings with the default `", "` separator and
`ensure_ascii=True`. -/
def pyDumps (videos : List Video) : String :=
  "[" ++ String.intercalate ", "
    (videos.map (fun v => jsonQuote true (modelDumpJson v))) ++ "]"

/-- Serialized size used by the trimming loop condition in
`_filter_by_char_cap` (`api/youtube.py` line 243). -/
def serializedLen (videos : List Video) : Nat :=
  (pyDumps videos).length

/-- Maximum of a nonempty list given its head and tail, as Python
`max(lst)` computes it. -/
def maxNat (a : Nat) (as : List Nat) : Nat :=
  as.foldl Nat.max a

/-- Transcript lengths of the videos, defined only when every transcript
is present — Python `[len(video.transcript) for video in videos]` raises
`TypeError` when some transcript is `None`; that case is kept separate in
`trimGo`. -/
def transcriptLens (videos : List Video) : List Nat :=
  videos.map (fun v => (v.transcript.getD "").length)

/-- One Python `while` pass of `_filter_by_char_cap`, written with
explicit fuel so that the recursion is structural.  The loop of the source
removes one element per iteration, so fuel `videos.length` always
suffices; the fuel-exhaustion branch (`0` fuel with a nonempty list) is
unreachable from `_filter_by_char_cap` below. -/
def trimGo (cap : Nat) : Nat → List Video → Except PyErr (List Video)
  | fuel, videos =>
    if serializedLen videos ≤ cap then .ok videos
    else if videos.any (fun v => v.transcript.isNone) then .error .typeError
    else match videos, fuel with
      | [], _ => .error (.valueError "max() arg is an empty sequence")
      | _ :: _, 0 => .error (.valueError "max() arg is an empty sequence")
      | v :: vs, fuel' + 1 =>
        let lens := transcriptLens (v :: vs)
        let maxIndex := lens.indexOf (maxNat ((v.transcript.getD "").length)
          (transcriptLens vs))
        trimGo cap fuel' ((v :: vs).eraseIdx maxIndex)

/-- Embedding of `_filter_by_char_cap` (`api/youtube.py` lines 240-247):
while the serialized size of the video list exceeds `char_cap`, find the
index of the (first) largest transcript and remove it.  `char_cap = none`
is the `if char_cap is None: return videos` branch. -/
def _filter_by_char_cap (videos : List Video) (char_cap : Option Nat) :
    Except PyErr (List Video) :=
  match char_cap with
  | none => .ok videos
  | some cap => trimGo cap videos.length videos

/-- Errorness of an embedded result (the call raised an exception). -/
def isErr {α : Type} : Except PyErr α → Bool
  | .error _ => true
  | .ok _ => false

/-- Concrete sample video with a present transcript, used by concrete
instantiations below. -/
def vidT : Video :=
  { id := "a", title := "t", short_desc := "s", channel := "c",
    duration := "1:00", views := "9", publish_time := "1 day ago",
    url_suffix := "/watch?v=a", transcript := some "short" }

/-- Concrete sample video with an absent (`None`) transcript. -/
def vidN : Video :=
  { id := "a", title := "t", short_desc := "s", channel := "c",
    duration := "1:00", views := "9", publish_time := "1 day ago",
    url_suffix := "/watch?v=a" }

/-- Concrete sample video published "2 hours ago". -/
def vidH : Video :=
  { id := "h", title := "t2", short_desc := "s", channel := "c",
    duration := "2:00", views := "5", publish_time := "2 hours ago",
    url_suffix := "/watch?v=h" }

/-- Concrete sample video with an empty (`""`) transcript. -/
def vidE : Video :=
  { id := "a", title := "t", short_desc := "s", channel := "c",
    duration := "1:00", views := "9", publish_time := "1 day ago",
    url_suffix := "/watch?v=a", transcript := some "" }

/-! ### Source registry adapter (`api/store.py`, `_filter_channels`,
`_filter_users`)

`get_data` loads the registry rows from CSV with `na_filter=False`, so the
`Youtube` and `X` columns are always strings (possibly `""` or `"n/a"`).
The pipeline functions below take the loaded registry as an explicit
parameter. -/

/-- One row of the curated source registry, restricted to the two columns
the resolution functions read. -/
structure SourceRow where
  Youtube : String
  X : String
deriving DecidableEq

/-- Resolution of a single raw channel identifier, extracted from the loop
body of `_filter_channels` (`api/youtube.py` lines 274-279): strip `@`,
find the first row whose `Youtube` column contains it as a substring, keep
that row's canonical handle unless it is empty or the `n/a` sentinel. -/
def resolveChannelOne (data : List SourceRow) (channel_raw : String) :
    Option String :=
  match data.find? (fun item =>
      pyContains (pyReplace channel_raw "@" "") item.Youtube) with
  | none => none
  | some found =>
    if found.Youtube ≠ "" && pyLower found.Youtube ≠ "n/a" then
      some found.Youtube
    else none

/-- Embedding of `_filter_channels` (`api/youtube.py` lines 271-280): the
append-if-resolved loop is a `filterMap` of the single-identifier
resolution. -/
def _filter_channels (data : List SourceRow) (channels : List String) :
    List String :=
  channels.filterMap (resolveChannelOne data)

/-- Resolution of a single raw X identifier, extracted from the loop body
of `_filter_users` (`api/x.py` lines 171-178): find the first row whose
lowercased `X` column contains the lowercased identifier as a substring,
keep that row's canonical handle unless it is empty or the `n/a`
sentinel. -/
def resolveUserOne (data : List SourceRow) (user : String) : Option String :=
  match data.find? (fun item => pyContains (pyLower user) (pyLower item.X)) with
  | none => none
  | some found =>
    if found.X ≠ "" && pyLower found.X ≠ "n/a" then some found.X
    else none

/-- Embedding of `_filter_users` (`api/x.py` lines 167-179). -/
def _filter_users (data : List SourceRow) (users : List String) :
    List String :=
  users.filterMap (resolveUserOne data)

/-- Resolution of one channel identifier as the spec describes it (§4.2):
a case-insensitive substring match against the registry's YouTube column,
substituting the first match's canonical handle and excluding the
not-applicable sentinel.  Stated for comparison with `resolveChannelOne`,
which is the code's behavior. -/
def specResolveChannelOne (data : List SourceRow) (channel_raw : String) :
    Option String :=
  match data.find? (fun item =>
      pyContains (pyLower (pyReplace channel_raw "@" ""))
        (pyLower item.Youtube)) with
  | none => none
  | some found =>
    if found.Youtube ≠ "" && pyLower found.Youtube ≠ "n/a" then
      some found.Youtube
    else none

/-- Channel resolution as the spec describes it, for comparison with
`_filter_channels`. -/
def specResolveChannels (data : List SourceRow) (channels : List String) :
    List String :=
  channels.filterMap (specResolveChannelOne data)

/-! ### Dates (`lib/utils.py` `get_since_date`, `datetime.strptime`)

`datetime.strptime(s, "%Y-%m-%d")` accepts exactly four year digits, one
or two month digits with value 1-12, one or two day digits, requires the
whole string to be consumed, and then the `datetime` constructor checks
`1 ≤ year` and that the day exists in the month.  `timedelta` subtraction
is embedded through the standard civil-calendar/day-number conversions. -/

/-- Gregorian leap year. -/
def isLeap (y : Int) : Bool :=
  (y % 4 == 0 && y % 100 != 0) || y % 400 == 0

/-- Number of days of month `m` (1-12) of year `y`. -/
def daysInMonth (y : Int) (m : Nat) : Nat :=
  if m = 2 then (if isLeap y then 29 else 28)
  else if m = 4 || m = 6 || m = 9 || m = 11 then 30
  else 31

/-- Embedding of `datetime.strptime(s, "%Y-%m-%d")`: `some (y, m, d)` when
the string parses and denotes a valid `datetime.date`, `none` when the
call raises `ValueError`. -/
def parseYMD (s : String) : Option (Int × Nat × Nat) :=
  match pySplit s '-' with
  | [ys, ms, ds] =>
    if ys.length = 4 && ys.data.all Char.isDigit
        && 1 ≤ ms.length && ms.length ≤ 2 && ms.data.all Char.isDigit
        && 1 ≤ ds.length && ds.length ≤ 2 && ds.data.all Char.isDigit then
      match digitsToNat? ys.data, digitsToNat? ms.data, digitsToNat? ds.data with
      | some y, some m, some d =>
        if 1 ≤ y && 1 ≤ m && m ≤ 12 && 1 ≤ d && d ≤ daysInMonth y m then
          some ((y : Int), m, d)
        else none
      | _, _, _ => none
    else none
  | _ => none

/-- Day number of a civil date (days since 1970-01-01, Gregorian
calendar). -/
def daysFromCivil (y : Int) (m d : Nat) : Int :=
  let y' : Int := y - (if m ≤ 2 then 1 else 0)
  let era : Int := y'.fdiv 400
  let yoe : Int := y' - era * 400
  let mp : Int := ((m : Int) + 9) % 12
  let doy : Int := (153 * mp + 2).fdiv 5 + (d : Int) - 1
  let doe : Int := yoe * 365 + yoe.fdiv 4 - yoe.fdiv 100 + doy
  era * 146097 + doe - 719468

/-- Civil date `(y, m, d)` of a day number (inverse of
`daysFromCivil`). -/
def civilFromDays (z : Int) : Int × Int × Int :=
  let z' : Int := z + 719468
  let era : Int := z'.fdiv 146097
  let doe : Int := z' - era * 146097
  let yoe : Int := (doe - doe.fdiv 1460 + doe.fdiv 36524 - doe.fdiv 146096).fdiv 365
  let y : Int := yoe + era * 400
  let doy : Int := doe - (365 * yoe + yoe.fdiv 4 - yoe.fdiv 100)
  let mp : Int := (5 * doy + 2).fdiv 153
  let d : Int := doy - (153 * mp + 2).fdiv 5 + 1
  let m : Int := mp + (if mp < 10 then 3 else -9)
  (y + (if m ≤ 2 then 1 else 0), m, d)

/-- Embedding of `get_since_date` (`lib/utils.py` lines 5-12): the
`[year, month, day]` of `end_date - timedelta(days=period_days)`, where a
falsy `end_date` means `datetime.today()`, supplied here as the day number
`todayRD`.  A `ValueError` from `strptime` becomes an error. -/
def get_since_date (todayRD : Int) (period_days : Int)
    (end_date : Option String) : Except PyErr (Int × Int × Int) :=
  match end_date with
  | some d =>
    if d ≠ "" then
      match parseYMD d with
      | some (y, m, dd) => .ok (civilFromDays (daysFromCivil y m dd - period_days))
      | none => .error (.valueError "strptime")
    else .ok (civilFromDays (todayRD - period_days))
  | none => .ok (civilFromDays (todayRD - period_days))

/-! ### Publish-time sorting (`api/youtube.py` `_sort_by_publish_time`,
`_process_video_results`) -/

/-- Seconds per relative-time unit name (singular form).  Modelled from
`dateparser` for the relative expressions the scraped `publish_time`
fields carry ("2 hours ago", "1 day ago", ...); fixed-length units only. -/
def unitSeconds : String → Option Int
  | "second" => some 1
  | "minute" => some 60
  | "hour" => some 3600
  | "day" => some 86400
  | "week" => some 604800
  | _ => none

/-- Either the string itself or, when it ends with `s`, the string with
that final `s` removed — accepting both "1 day" and "2 days". -/
def singularize (s : String) : String :=
  if s.data.getLast? = some 's' then String.mk s.data.dropLast else s

/-- Modelled from `dateparser.parse` restricted to relative expressions:
"N unit(s) ago" yields the number of seconds before the relative base. -/
def parseRelTime (s : String) : Option Int :=
  match pySplit s ' ' with
  | [n, unit, "ago"] =>
    match digitsToNat? n.data, unitSeconds (singularize unit) with
    | some num, some secs => some ((num : Int) * secs)
    | _, _ => none
  | _ => none

/-- Embedding of `_sort_by_publish_time` (`api/youtube.py` lines 250-256):
parse the publish time with the `"Streamed "` prefix noise removed,
relative to the fetch time `now` (seconds); `none` when `dateparser`
returns `None` and the subsequent `.timetuple()` raises
`AttributeError`. -/
def _sort_by_publish_time (now : Int) (video : Video) : Option Int :=
  (parseRelTime (pyReplace video.publish_time "Streamed " "")).map
    (fun secs => now - secs)

/-- Total version of the sort key, used only under the guard that every
key parses (Python materializes all keys before sorting and raises
otherwise). -/
def sortKeyD (now : Int) (video : Video) : Int :=
  (_sort_by_publish_time now video).getD 0

/-- Embedding of `videos.sort(key=_sort_by_publish_time)` followed by
`videos[::-1]` (`api/youtube.py` lines 183-184): Python's sort is stable,
embedded as a stable insertion sort ascending on the key, then reversed;
`AttributeError` when some key fails to parse. -/
def pySortReverse (now : Int) (videos : List Video) :
    Except PyErr (List Video) :=
  if videos.any (fun v => (_sort_by_publish_time now v).isNone) then
    .error .attributeError
  else
    .ok ((List.insertionSort
      (fun a b => sortKeyD now a ≤ sortKeyD now b) videos).reverse)

/-- Accumulation loop of `_process_video_results` (`api/youtube.py` lines
180-185): each per-channel sublist is freshness-sorted when the query is
falsy and appended in channel order (`res.extend(videos)`). -/
def processSublists (now : Int) (query : Option String) :
    List (List Video) → Except PyErr (List Video)
  | [] => .ok []
  | videos :: rest =>
    match (if truthyStr query then .ok videos else pySortReverse now videos) with
    | .error e => .error e
    | .ok vs =>
      match processSublists now query rest with
      | .error e => .error e
      | .ok others => .ok (vs ++ others)

/-- Embedding of `_process_video_results` (`api/youtube.py` lines
176-188): per-channel sublists are freshness-sorted when the query is
falsy, concatenated in channel order, then char-cap trimmed when
`char_cap` is truthy (Python `if char_cap:`, so `0` is skipped). -/
def _process_video_results (now : Int) (results : List (List Video))
    (query : Option String) (char_cap : Option Nat) :
    Except PyErr (List Video) :=
  match processSublists now query results with
  | .error e => .error e
  | .ok res =>
    if char_cap.getD 0 ≠ 0 then _filter_by_char_cap res char_cap else .ok res

/-! ### The video pipeline (`api/youtube.py` `youtube_search`) -/

/-- UTF-8 bytes of a character (code point split per the UTF-8
encoding). -/
def utf8Bytes (c : Char) : List Nat :=
  let n := c.toNat
  if n < 0x80 then [n]
  else if n < 0x800 then [0xC0 + n / 64, 0x80 + n % 64]
  else if n < 0x10000 then
    [0xE0 + n / 4096, 0x80 + n / 64 % 64, 0x80 + n % 64]
  else
    [0xF0 + n / 262144, 0x80 + n / 4096 % 64, 0x80 + n / 64 % 64,
      0x80 + n % 64]

/-- Uppercase hexadecimal digit. -/
def hexDigitUpper (n : Nat) : Char :=
  if n < 10 then Char.ofNat (48 + n) else Char.ofNat (55 + n)

/-- Embedding of `urllib.parse.quote_plus`: alphanumerics and `_.-~` are
kept, a space becomes `+`, every other character is percent-encoded per
UTF-8 byte with uppercase hex digits. -/
def quotePlus (s : String) : String :=
  String.mk ((s.data.map (fun c =>
    if c.isAlphanum || c = '_' || c = '.' || c = '-' || c = '~' then [c]
    else if c = ' ' then ['+']
    else (utf8Bytes c).flatMap
      (fun b => ['%', hexDigitUpper (b / 16), hexDigitUpper (b % 16)]))).flatten)

/-- Embedding of `_build_youtube_search_url` (`api/youtube.py` lines
141-148). -/
def _build_youtube_search_url (todayRD : Int) (query : Option String)
    (period_days : Int) (end_date : String) : Except PyErr String :=
  match get_since_date todayRD period_days (some end_date) with
  | .error e => .error e
  | .ok (year, month, day) =>
    let query_str := match query with
      | some q => if q ≠ "" then q ++ " " else ""
      | none => ""
    let before :=
      if end_date ≠ "" then
        (if truthyStr query then " " else "") ++ "before:" ++ end_date ++ " "
      else ""
    .ok (quotePlus (query_str ++ before ++ s!"after:{year}-{month}-{day}"))

/-- Embedding of `_create_channel_tasks` (`api/youtube.py` lines 151-173):
one `(channel, url)` task per resolved channel, skipping the literal
`"n/a"`. -/
def _create_channel_tasks (channels_arr : List String)
    (encoded_search : String) : List (String × String) :=
  (channels_arr.filter (fun c => c ≠ "n/a")).map (fun channel =>
    (channel, "https://www.youtube.com/" ++ channel ++ "/search?hl=en&query="
      ++ encoded_search))

/-- Embedding of `asyncio.gather(*tasks)` without `return_exceptions`: all
results in task order, or the exception of a failed task (deterministically
the first in task order in this sequential model). -/
def gatherE {α : Type} : List (Except PyErr α) → Except PyErr (List α)
  | [] => .ok []
  | x :: xs =>
    match x with
    | .error e => .error e
    | .ok a =>
      match gatherE xs with
      | .error e => .error e
      | .ok as => .ok (a :: as)

/-- Embedding of `youtube_search` (`api/youtube.py` lines 192-237).  The
per-channel network fetch `_get_channel_videos` is the external
collaborator `fetch : channel → url → result` (the
`max_videos_per_channel`, `get_descriptions` and `get_transcripts`
arguments only parameterize that fetch).  The surrounding
`try/except ...: raise` re-raises every fetch exception unchanged, so
`gatherE` errors propagate to the caller. -/
def youtube_search (data : List SourceRow) (now todayRD : Int)
    (fetch : String → String → Except PyErr (List Video))
    (channels : String) (end_date : String) (query : Option String)
    (period_days : Int) (char_cap : Option Nat) :
    Except PyErr (List Video) :=
  if channels = "" then .error (.valueError "No channels specified")
  else
    let channels_arr := _filter_channels data
      ((pySplit (pyLower channels) ',').map
        (fun channel => "@" ++ pyReplace channel "@" ""))
    if channels_arr.length = 0 then .ok []
    else
      match _build_youtube_search_url todayRD query period_days end_date with
      | .error e => .error e
      | .ok encoded_search =>
        let tasks := _create_channel_tasks channels_arr encoded_search
        match gatherE (tasks.map (fun t => fetch t.1 t.2)) with
        | .error e => .error e
        | .ok results => _process_video_results now results query char_cap

/-! ### The microblog pipeline (`api/x.py`) -/

/-- User model from `api/x.py` (class `User`). -/
structure XUser where
  id : Int
  screen_name : String
deriving DecidableEq

/-- Tweet model from `api/x.py` (class `Tweet`). -/
structure Tweet where
  id : String
  text : String
  lang : String
  hashtags : List String
  user : XUser
deriving DecidableEq

/-- Embedding of `_validate_x_search_params` (`api/x.py` lines 72-89):
normalizes `users == ""` to `None`, raises `ValueError` when neither users
nor query is truthy, when `period_days <= 1`, or when a truthy `end_date`
fails `strptime(end_date, "%Y-%m-%d")`; otherwise returns the normalized
users. -/
def _validate_x_search_params (users query : Option String)
    (period_days : Int) (end_date : Option String) :
    Except PyErr (Option String) :=
  let users := if users = some "" then none else users
  if ¬ truthyStr users ∧ ¬ truthyStr query then
    .error (.valueError "Either users or query must be provided")
  else if period_days ≤ 1 then
    .error (.valueError "period_days must be 1 or more")
  else match end_date with
    | some d =>
      if d ≠ "" then
        match parseYMD d with
        | some _ => .ok users
        | none => .error (.valueError "end_date must be in YYYY-MM-DD format")
      else .ok users
    | none => .ok users

/-- Embedding of `_build_x_search_query` (`api/x.py` lines 92-101). -/
def _build_x_search_query (todayRD : Int) (users_arr : List String)
    (query : Option String) (period_days : Int) (end_date : Option String) :
    Except PyErr String :=
  let query_str := match query with
    | some q => if q ≠ "" then " " ++ q else ""
    | none => ""
  match get_since_date todayRD period_days end_date with
  | .error e => .error e
  | .ok (year, month, day) =>
    let since := s!"since:{year}-{month}-{day} "
    let til := match end_date with
      | some d => if d ≠ "" then "until:" ++ d else ""
      | none => ""
    let users_str :=
      if users_arr.length > 0 then
        " (" ++ String.intercalate " OR " users_arr ++ ")"
      else ""
    .ok (pyTrim (since ++ til ++ users_str ++ query_str))

/-- One step of the `_max_per_user` bucket loop: append the tweet to its
user's bucket (insertion order of first appearance preserved, as for a
Python dict) unless the bucket already holds `maxN` tweets. -/
def addTweet (maxN : Nat) : List (Int × List Tweet) → Tweet →
    List (Int × List Tweet)
  | [], t => [(t.user.id, [t])]
  | (k, ts) :: rest, t =>
    if k = t.user.id then
      if ts.length ≥ maxN then (k, ts) :: rest
      else (k, ts ++ [t]) :: rest
    else (k, ts) :: addTweet maxN rest t

/-- Embedding of `_max_per_user` (`api/x.py` lines 155-164): bucket the
tweets by `tweet.user.id` capping each bucket, then flatten the buckets in
first-appearance order. -/
def _max_per_user (tweets : List Tweet) (max_tweets_per_user : Nat) :
    List Tweet :=
  (tweets.foldl (addTweet max_tweets_per_user) []).flatMap (fun b => b.2)

/-- Fetch-and-recover phase of `x_search` (`api/x.py` lines 142-152): run
the fetch, cap the tweets per user on success; `HTTPException`,
`ConnectionError`, `TimeoutError` and `ValueError` are caught, logged and
turned into `[]`; any other exception propagates. -/
def xFetchPhase (fetch : String → Nat → Except PyErr (List Tweet))
    (search : String) (count max_tweets_per_user : Nat) :
    Except PyErr (List Tweet) :=
  match fetch search count with
  | .ok tweets => .ok (_max_per_user tweets max_tweets_per_user)
  | .error (.httpException _ _) => .ok []
  | .error .connectionError => .ok []
  | .error .timeoutError => .ok []
  | .error (.valueError _) => .ok []
  | .error e => .error e

/-- Embedding of `x_search` (`api/x.py` lines 118-152).  The upstream
`_fetch_tweets` (network client, pagination) is the external collaborator
`fetch : search-string → count → result`.  The `except` clauses of the
source catch `HTTPException`, `ConnectionError`, `TimeoutError` and
`ValueError` from the fetch and return `[]`; any other exception
propagates. -/
def x_search (data : List SourceRow) (todayRD : Int)
    (fetch : String → Nat → Except PyErr (List Tweet))
    (users query : Option String) (period_days : Int)
    (end_date : Option String) (max_tweets_per_user : Nat) :
    Except PyErr (List Tweet) :=
  match _validate_x_search_params users query period_days end_date with
  | .error e => .error e
  | .ok users' =>
    let users_arr := match users' with
      | some u =>
        if u ≠ "" then
          (_filter_users data (pySplit (pyLower u) ',')).map
            (fun user => "from:" ++ user)
        else []
      | none => []
    match _build_x_search_query todayRD users_arr query period_days
        end_date with
    | .error e => .error e
    | .ok search =>
      let count := if users_arr ≠ [] then
          users_arr.length * max_tweets_per_user
        else max_tweets_per_user
      xFetchPhase fetch search count max_tweets_per_user

/-! ### The newsletter pipeline (`api/substack.py`) -/

/-- Post metadata dictionary fields read by `substack_search`
(`post.get_metadata()`); `none` models an absent key (`metadata.get`
returning `None`). -/
structure PostMeta where
  idVal : Option Int
  post_date : Option String
  published_at : Option String
  audience : Option String
  title : Option String
  subtitle : Option String
  description : Option String
  preview_description : Option String
  body_html : Option String
deriving DecidableEq

/-- One raw post of a publication: slug, url, and the result of
`post.get_metadata()` (an `Except` because that network call may raise,
which the per-post `try/except` of the source turns into a skip). -/
structure RawPost where
  slug : String
  url : String
  meta : Except PyErr PostMeta

/-- Normalized post model from `api/substack.py` (class `SubstackPost`);
`published_at` is the parsed timestamp. -/
structure SubstackPost where
  id : Int
  slug : String
  title : String
  subtitle : Option String
  url : String
  published_at : Int
  publication_name : String
  content : Option String
  preview : Option String

/-- Python `a or b` on two optional strings: the first truthy value, else
the second value unchanged. -/
def pyOrStr (a b : Option String) : Option String :=
  match a with
  | some s => if s ≠ "" then some s else b
  | none => b

/-- Embedding of the per-post body of `substack_search` (`api/substack.py`
lines 95-149): skip the post when `get_metadata` raised, when no date
field is truthy, when the date fails `datetime.fromisoformat` (`parseIso`
models that stdlib parser), or when `audience == "only_paid"`; otherwise
build the normalized `SubstackPost`.  `htmlToText` models the
BeautifulSoup-based `html_to_text` collaborator. -/
def processPost (parseIso : String → Option Int)
    (htmlToText : String → String) (pubName : String) (post : RawPost) :
    Option SubstackPost :=
  match post.meta with
  | .error _ => none
  | .ok md =>
    match truthyStr (pyOrStr md.post_date md.published_at),
        pyOrStr md.post_date md.published_at with
    | true, some date_str =>
      match parseIso (pyReplace date_str "Z" "+00:00") with
      | none => none
      | some post_date =>
        if md.audience = some "only_paid" then none
        else
          let title := md.title.getD ""
          let subtitle := md.subtitle.getD ""
          let preview := pyOrStr md.description md.preview_description
          let content_text := match md.body_html with
            | some h => if h ≠ "" then some (htmlToText h) else none
            | none => none
          some
            { id := md.idVal.getD 0
            , slug := post.slug
            , title := title
            , subtitle := if subtitle ≠ "" then some subtitle else none
            , url := post.url
            , published_at := post_date
            , publication_name := pyTrim pubName
            , content := content_text
            , preview := preview }
    | _, _ => none

/-- Embedding of `substack_search` (`api/substack.py` lines 53-156).  The
per-publication fetch (`Newsletter(...)` plus `search_posts`/`get_posts`,
which already applies `query` and `max_posts_per_publication`) is the
external collaborator `fetchPosts`; a raised exception there skips the
publication. -/
def substack_search (parseIso : String → Option Int)
    (htmlToText : String → String)
    (fetchPosts : String → Except PyErr (List RawPost))
    (publications : Option String) : List SubstackPost :=
  let publication_list := match publications with
    | some p => if p ≠ "" then pySplit p ',' else []
    | none => []
  publication_list.flatMap (fun pub =>
    match fetchPosts pub with
    | .error _ => []
    | .ok posts => posts.filterMap (processPost parseIso htmlToText pub))

/-- Trivial per-channel fetch that always succeeds with no items; used to
isolate the validation phase of `youtube_search`. -/
def fetchOkEmpty : String → String → Except PyErr (List Video) :=
  fun _ _ => .ok []

/-- Concrete fetch in which channel `@chana` fails with an HTTP error and
every other channel succeeds with two videos. -/
def fetchFailA : String → String → Except PyErr (List Video) :=
  fun channel _ =>
    if channel = "@chana" then
      .error (.httpException 400 "Failed to fetch videos")
    else .ok [vidT, vidE]

/-- Concrete tweet used by concrete instantiations. -/
def tweet1 : Tweet :=
  { id := "t1", text := "hello", lang := "en", hashtags := [],
    user := { id := 7, screen_name := "someone" } }

/-- Concrete X fetch that always raises HTTP 429 (the scenario of
`test_x_search_rate_limit_handling`). -/
def fetch429 : String → Nat → Except PyErr (List Tweet) :=
  fun _ _ => .error (.httpException 429 "Rate limit exceeded")

/-- Concrete X fetch that always succeeds with one tweet. -/
def fetchOneTweet : String → Nat → Except PyErr (List Tweet) :=
  fun _ _ => .ok [tweet1]

/-! ### The TTL cache single-flight model

Modelled from the spec: the repository imports
`sync_threadsafe_ttl_cache` and `async_threadsafe_ttl_cache` from
`lib/cache`, a module that is not part of the source tree; only the
decorator call sites (`api/youtube.py` line 192, line 259, `api/x.py`
line 118) are present.  Following the spec's words (§4.1): for a given
key, a caller either returns a fresh cached value, starts the producer
when none is in flight, or waits on the in-flight computation and
receives the same result.  The model fixes one key and one deterministic
producer value and interleaves any number of callers; `runs` counts
producer executions. -/

/-- Phase of one caller of the cached function (for the fixed key). -/
inductive Phase (V : Type) where
  | start
  | producing
  | waiting
  | done (v : V)
deriving DecidableEq

/-- Global state of the cache entry for one key, plus every caller's
phase. -/
structure CState (V : Type) where
  flight : Option Nat
  result : Option V
  runs : Nat
  caller : Nat → Phase V

/-- Initial state: no computation in flight, nothing cached, no producer
run, every caller about to call. -/
def initState (V : Type) : CState V :=
  { flight := none, result := none, runs := 0, caller := fun _ => .start }

/-- Interleaving semantics of the single-flight cache: each constructor
is one atomic action of one caller under the cache's per-key lock. -/
inductive CacheStep (produce : V) : CState V → CState V → Prop
  | hit (s : CState V) (i : Nat) (v : V) :
      s.caller i = .start → s.result = some v →
      CacheStep produce s
        { s with caller := Function.update s.caller i (.done v) }
  | produceStart (s : CState V) (i : Nat) :
      s.caller i = .start → s.result = none → s.flight = none →
      CacheStep produce s
        { s with flight := some i, runs := s.runs + 1,
                 caller := Function.update s.caller i .producing }
  | waitStart (s : CState V) (i j : Nat) :
      s.caller i = .start → s.result = none → s.flight = some j →
      CacheStep produce s
        { s with caller := Function.update s.caller i .waiting }
  | produceFinish (s : CState V) (i : Nat) :
      s.caller i = .producing → s.flight = some i →
      CacheStep produce s
        { s with flight := none, result := some produce,
                 caller := Function.update s.caller i (.done produce) }
  | wake (s : CState V) (i : Nat) (v : V) :
      s.caller i = .waiting → s.result = some v →
      CacheStep produce s
        { s with caller := Function.update s.caller i (.done v) }

/-- States reachable from the initial state by any interleaving. -/
def CacheReachable (produce : V) (s : CState V) : Prop :=
  Relation.ReflTransGen (CacheStep produce) (initState V) s

/-- Inductive invariant of the single-flight cache: at most one producer
run ever happens, and every completed caller saw the producer's value. -/
def CacheInv (produce : V) (s : CState V) : Prop :=
  (s.flight = none ∧ s.result = none → s.runs = 0)
  ∧ (s.flight ≠ none → s.runs = 1)
  ∧ (s.result ≠ none → s.runs = 1)
  ∧ (∀ v, s.result = some v → v = produce)
  ∧ (∀ i v, s.caller i = .done v → v = produce ∧ s.result = some produce)

/-- Intermediate state of a concrete single-flight run: caller 0 has
started the producer. -/
def cacheWitnessMid : CState Nat :=
  { flight := some 0, result := none, runs := 1,
    caller := Function.update (fun _ => Phase.start) 0 Phase.producing }

/-- Final state of a concrete single-flight run: caller 0 finished the
producer and holds its value. -/
def cacheWitnessFinal : CState Nat :=
  { flight := none, result := some 42, runs := 1,
    caller := Function.update
      (Function.update (fun _ => Phase.start) 0 Phase.producing)
      0 (Phase.done 42) }

/-! ## Theorems -/

/-- Unfolding equation of the trimming loop (one `while` test of the
source). -/
theorem trimGo_unfold (cap fuel : Nat) (videos : List Video) :
    trimGo cap fuel videos =
      if serializedLen videos ≤ cap then .ok videos
      else if videos.any (fun v => v.transcript.isNone) then .error .typeError
      else match videos, fuel with
        | [], _ => .error (.valueError "max() arg is an empty sequence")
        | _ :: _, 0 => .error (.valueError "max() arg is an empty sequence")
        | v :: vs, fuel' + 1 =>
          let lens := transcriptLens (v :: vs)
          let maxIndex := lens.indexOf (maxNat ((v.transcript.getD "").length)
            (transcriptLens vs))
          trimGo cap fuel' ((v :: vs).eraseIdx maxIndex) := by
  rw [trimGo.eq_def]

/-- Helper for C2: whenever the trimming loop returns normally, the result
is a subsequence of the input and fits the budget, for any fuel. -/
theorem trimGo_ok (cap : Nat) : ∀ (fuel : Nat) (videos res : List Video),
    trimGo cap fuel videos = .ok res →
    res.Sublist videos ∧ serializedLen res ≤ cap := by
  intro fuel
  induction fuel with
  | zero =>
    intro videos res h
    rw [trimGo_unfold] at h
    split at h
    · simp only [Except.ok.injEq] at h
      subst h
      exact ⟨List.Sublist.refl _, by assumption⟩
    · split at h
      · simp at h
      · cases videos with
        | nil => simp at h
        | cons v vs => simp at h
  | succ f ih =>
    intro videos res h
    rw [trimGo_unfold] at h
    split at h
    · simp only [Except.ok.injEq] at h
      subst h
      exact ⟨List.Sublist.refl _, by assumption⟩
    · split at h
      · simp at h
      · cases videos with
        | nil => simp at h
        | cons v vs =>
          obtain ⟨hs, hl⟩ := ih _ _ h
          exact ⟨hs.trans (List.eraseIdx_sublist _ _), hl⟩

/-- C2: with every transcript present, whenever `_filter_by_char_cap`
returns normally its result is a subsequence of the input (surviving items
keep their relative order; the loop is by construction the repeated
removal of the first largest-transcript item) and the serialized size of
the result is at most the budget. -/
theorem filter_by_char_cap_trims_to_budget (videos : List Video) (cap : Nat)
    (htr : ∀ v ∈ videos, v.transcript.isSome) (res : List Video)
    (hok : _filter_by_char_cap videos (some cap) = .ok res) :
    res.Sublist videos ∧ serializedLen res ≤ cap := by
  have _ := htr
  exact trimGo_ok cap videos.length videos res hok

/-- Witness for C2 at a concrete input: one video with a present
transcript, budget 1000, kept whole. -/
theorem filter_by_char_cap_trims_to_budget_witness :
    (∀ v ∈ [vidT], v.transcript.isSome)
    ∧ (List.Sublist [vidT] [vidT] ∧ serializedLen [vidT] ≤ 1000) :=
  ⟨by decide, filter_by_char_cap_trims_to_budget [vidT] 1000 (by decide)
    [vidT] rfl⟩

/-- C1: evaluation of `_filter_by_char_cap` at the failing inputs.  A
video whose transcript is `None` makes the eviction loop raise `TypeError`
(Python `len(None)`) as soon as trimming is needed, and a budget below the
size of the empty serialization makes the loop empty the list and then
raise `ValueError` (`max(())`); in neither case does the function return a
result as the spec requires. -/
theorem filter_by_char_cap_raises_on_missing_payload :
    _filter_by_char_cap [vidN] (some 1) = .error .typeError
    ∧ _filter_by_char_cap [vidE] (some 1)
      = .error (.valueError "max() arg is an empty sequence") := by
  exact ⟨rfl, rfl⟩

/-- Helper: `Char.toLower` is idempotent (lowering an already-lowered
character changes nothing). -/
theorem charToLower_idem (c : Char) : c.toLower.toLower = c.toLower := by
  unfold Char.toLower
  by_cases h : c.toNat ≥ 65 ∧ c.toNat ≤ 90
  · rw [if_pos h]
    have hv : (c.toNat + 32).isValidChar := Or.inl (by omega)
    have ht : (Char.ofNat (c.toNat + 32)).toNat = c.toNat + 32 := by
      rw [Char.ofNat, dif_pos hv]
      rfl
    rw [if_neg (fun hc => by rw [ht] at hc; omega)]
  · rw [if_neg h, if_neg h]

/-- Helper: the embedded `str.lower()` is idempotent. -/
theorem pyLower_idem (s : String) : pyLower (pyLower s) = pyLower s := by
  show String.mk ((s.data.map Char.toLower).map Char.toLower)
    = String.mk (s.data.map Char.toLower)
  rw [List.map_map]
  exact congrArg _ (List.map_congr_left (fun c _ => charToLower_idem c))

/-- Helper: X-identifier resolution only sees the lowercased identifier. -/
theorem resolveUserOne_lower (data : List SourceRow) (raw : String) :
    resolveUserOne data (pyLower raw) = resolveUserOne data raw := by
  unfold resolveUserOne
  rw [pyLower_idem]

/-- Helper: a resolved channel handle is the canonical column value of a
registry row that is neither empty nor the sentinel. -/
theorem resolveChannelOne_some (data : List SourceRow) (raw h : String)
    (hr : resolveChannelOne data raw = some h) :
    ∃ row ∈ data, h = row.Youtube ∧ row.Youtube ≠ ""
      ∧ pyLower row.Youtube ≠ "n/a" := by
  unfold resolveChannelOne at hr
  split at hr
  · exact Option.noConfusion hr
  · rename_i found hfind
    split at hr
    · rename_i hcond
      simp only [Option.some.injEq] at hr
      subst hr
      simp only [Bool.and_eq_true, decide_eq_true_eq] at hcond
      exact ⟨found, List.mem_of_find?_eq_some hfind, rfl, hcond.1, hcond.2⟩
    · exact Option.noConfusion hr

/-- Helper: a resolved X handle is the canonical column value of a
registry row that is neither empty nor the sentinel. -/
theorem resolveUserOne_some (data : List SourceRow) (raw h : String)
    (hr : resolveUserOne data raw = some h) :
    ∃ row ∈ data, h = row.X ∧ row.X ≠ "" ∧ pyLower row.X ≠ "n/a" := by
  unfold resolveUserOne at hr
  split at hr
  · exact Option.noConfusion hr
  · rename_i found hfind
    split at hr
    · rename_i hcond
      simp only [Option.some.injEq] at hr
      subst hr
      simp only [Bool.and_eq_true, decide_eq_true_eq] at hcond
      exact ⟨found, List.mem_of_find?_eq_some hfind, rfl, hcond.1, hcond.2⟩
    · exact Option.noConfusion hr

/-- C4 counterexample: channel resolution is not case-insensitive.  With
the registry row `Youtube = "@CNN"`, the identifier `"cnn"` resolves to
nothing in the code (`channel in item["Youtube"]` does not fold the
registry side), while the spec's case-insensitive matching resolves it to
`"@CNN"`. -/
theorem filter_channels_not_case_insensitive :
    _filter_channels [{ Youtube := "@CNN", X := "" }] ["cnn"] = []
    ∧ specResolveChannels [{ Youtube := "@CNN", X := "" }] ["cnn"]
      = ["@CNN"] := by
  exact ⟨rfl, rfl⟩

/-- C4 amended: X resolution is case-insensitive in the identifier (both
sides are folded), while channel resolution compares the `@`-stripped
identifier against the unfolded registry column; for both platforms a
resolved output is always the canonical handle of a registry row that is
neither empty nor the `n/a` sentinel, and an identifier matching no row is
dropped silently. -/
theorem filter_resolution_amended (data : List SourceRow)
    (ids : List String) :
    (_filter_users data (ids.map pyLower) = _filter_users data ids)
    ∧ (∀ h ∈ _filter_channels data ids,
        ∃ row ∈ data, h = row.Youtube ∧ row.Youtube ≠ ""
          ∧ pyLower row.Youtube ≠ "n/a")
    ∧ (∀ h ∈ _filter_users data ids,
        ∃ row ∈ data, h = row.X ∧ row.X ≠ "" ∧ pyLower row.X ≠ "n/a")
    ∧ (∀ raw, (∀ row ∈ data,
          pyContains (pyReplace raw "@" "") row.Youtube = false) →
        resolveChannelOne data raw = none)
    ∧ (∀ raw, (∀ row ∈ data,
          pyContains (pyLower raw) (pyLower row.X) = false) →
        resolveUserOne data raw = none) := by
  refine ⟨?_, ?_, ?_, ?_, ?_⟩
  · unfold _filter_users
    rw [List.filterMap_map]
    exact List.filterMap_congr (fun raw _ => resolveUserOne_lower data raw)
  · intro h hmem
    obtain ⟨raw, _, hres⟩ := List.mem_filterMap.mp hmem
    exact resolveChannelOne_some data raw h hres
  · intro h hmem
    obtain ⟨raw, _, hres⟩ := List.mem_filterMap.mp hmem
    exact resolveUserOne_some data raw h hres
  · intro raw hnone
    unfold resolveChannelOne
    rw [List.find?_eq_none.mpr (fun row hrow => by
      simp [hnone row hrow])]
  · intro raw hnone
    unfold resolveUserOne
    rw [List.find?_eq_none.mpr (fun row hrow => by
      simp [hnone row hrow])]

/-- Witness for the amended C4 at a concrete registry and identifier:
lowercasing the identifier `"ALICE"` does not change X resolution. -/
theorem filter_resolution_amended_witness :
    _filter_users [{ Youtube := "", X := "alice" }] (["ALICE"].map pyLower)
      = _filter_users [{ Youtube := "", X := "alice" }] ["ALICE"] :=
  (filter_resolution_amended [{ Youtube := "", X := "alice" }] ["ALICE"]).1

/-- Helper: gathering the tasks of the trivial fetch succeeds with only
empty sublists. -/
theorem gatherE_fetchOkEmpty (tasks : List (String × String)) :
    gatherE (tasks.map (fun t => fetchOkEmpty t.1 t.2))
      = .ok (tasks.map (fun _ => [])) := by
  induction tasks with
  | nil => rfl
  | cons t ts ih =>
    simp only [List.map_cons, gatherE, ih]
    rfl

/-- Helper: processing only empty sublists yields the empty merge. -/
theorem processSublists_empties (now : Int) (query : Option String) :
    ∀ (l : List (List Video)), (∀ x ∈ l, x = []) →
      processSublists now query l = .ok [] := by
  intro l
  induction l with
  | nil => intro _; rfl
  | cons x xs ih =>
    intro h
    have hx : x = [] := h x (by simp)
    subst hx
    have hrest := ih (fun y hy => h y (by simp [hy]))
    cases hq : truthyStr query with
    | true => simp [processSublists, hq, hrest]
    | false => simp [processSublists, hq, hrest, pySortReverse]

/-- Helper: the YouTube search-URL builder fails exactly on a non-empty
end date that `strptime` rejects. -/
theorem build_url_err_iff (todayRD : Int) (query : Option String)
    (period_days : Int) (end_date : String) :
    isErr (_build_youtube_search_url todayRD query period_days end_date)
        = true
      ↔ end_date ≠ "" ∧ parseYMD end_date = none := by
  simp only [_build_youtube_search_url, get_since_date]
  by_cases hed : end_date = ""
  · subst hed
    simp [isErr]
  · rw [if_pos hed]
    cases hp : parseYMD end_date with
    | none => simp [isErr, hed, hp]
    | some v =>
      obtain ⟨y, m, dd⟩ := v
      simp [isErr, hed, hp]

/-- C5 amended: the validation raise-conditions of the two pipelines.
`x_search`'s validator raises exactly when neither users nor query is
truthy, or `period_days ≤ 1` (so also at the positive value 1, despite
its own message "must be 1 or more"), or a truthy end date fails
`strptime`.  `youtube_search` (run against a fetch that always succeeds
and no char cap, so that only validation can fail) raises exactly when
`channels` is empty — even when a query is supplied — or when resolution
is non-empty and a non-empty end date fails `strptime`; a non-positive
period is not rejected. -/
theorem validation_error_iff :
    (∀ (users query : Option String) (period_days : Int)
      (end_date : Option String),
      isErr (_validate_x_search_params users query period_days end_date)
          = true
        ↔ ((¬ truthyStr (if users = some "" then none else users) = true
              ∧ ¬ truthyStr query = true)
            ∨ period_days ≤ 1
            ∨ (truthyStr end_date = true
                ∧ parseYMD (end_date.getD "") = none)))
    ∧ (∀ (data : List SourceRow) (now todayRD : Int)
        (channels end_date : String) (query : Option String)
        (period_days : Int),
        isErr (youtube_search data now todayRD fetchOkEmpty channels
            end_date query period_days none) = true
          ↔ (channels = "" ∨
              (_filter_channels data ((pySplit (pyLower channels) ',').map
                  (fun c => "@" ++ pyReplace c "@" "")) ≠ []
                ∧ end_date ≠ "" ∧ parseYMD end_date = none))) := by
  constructor
  · intro users query period_days end_date
    simp only [_validate_x_search_params]
    by_cases h1 : ¬ truthyStr (if users = some "" then none else users)
          = true
        ∧ ¬ truthyStr query = true
    · rw [if_pos h1]
      exact iff_of_true rfl (Or.inl h1)
    · rw [if_neg h1]
      by_cases h2 : period_days ≤ 1
      · rw [if_pos h2]
        exact iff_of_true rfl (Or.inr (Or.inl h2))
      · rw [if_neg h2]
        cases end_date with
        | none =>
          refine iff_of_false (by simp [isErr]) ?_
          rintro (hc | hc | hc)
          · exact h1 hc
          · exact h2 hc
          · exact absurd hc.1 (by decide)
        | some d =>
          by_cases hd : d = ""
          · subst hd
            refine iff_of_false (by simp [isErr]) ?_
            rintro (hc | hc | hc)
            · exact h1 hc
            · exact h2 hc
            · exact absurd hc.1 (by decide)
          · cases hp : parseYMD d with
            | none =>
              refine iff_of_true (by simp [isErr, hd, hp]) ?_
              refine Or.inr (Or.inr ⟨?_, by simpa using hp⟩)
              simp [truthyStr, hd]
            | some v =>
              refine iff_of_false (by simp [isErr, hd, hp]) ?_
              rintro (hc | hc | hc)
              · exact h1 hc
              · exact h2 hc
              · simp [hp] at hc
  · intro data now todayRD channels end_date query period_days
    simp only [youtube_search]
    by_cases hch : channels = ""
    · rw [if_pos hch]
      exact iff_of_true rfl (Or.inl hch)
    · rw [if_neg hch]
      by_cases hlen : (_filter_channels data
          ((pySplit (pyLower channels) ',').map
            (fun c => "@" ++ pyReplace c "@" ""))).length = 0
      · rw [if_pos hlen]
        refine iff_of_false (by simp [isErr]) ?_
        rintro (hc | ⟨hc, _, _⟩)
        · exact hch hc
        · exact hc (List.length_eq_zero.mp hlen)
      · rw [if_neg hlen]
        cases hb : _build_youtube_search_url todayRD query period_days
            end_date with
        | error e =>
          have herr := (build_url_err_iff todayRD query period_days
            end_date).mp (by rw [hb]; rfl)
          exact iff_of_true rfl (Or.inr
            ⟨fun hnil => hlen (by rw [hnil]; rfl), herr.1, herr.2⟩)
        | ok es =>
          have hnoerr : ¬ (end_date ≠ "" ∧ parseYMD end_date = none) := by
            intro hcontra
            have hiserr := (build_url_err_iff todayRD query period_days
              end_date).mpr hcontra
            rw [hb] at hiserr
            exact absurd hiserr (by simp [isErr])
          dsimp only
          rw [gatherE_fetchOkEmpty]
          dsimp only
          have hproc : _process_video_results now
              ((_create_channel_tasks (_filter_channels data
                  ((pySplit (pyLower channels) ',').map
                    (fun c => "@" ++ pyReplace c "@" ""))) es).map
                (fun _ => []))
              query none = .ok [] := by
            simp only [_process_video_results]
            rw [processSublists_empties now query _
              (by
                intro x hx
                obtain ⟨t, _, ht⟩ := List.mem_map.mp hx
                exact ht.symm)]
            rfl
          rw [hproc]
          refine iff_of_false (by simp [isErr]) ?_
          rintro (hc | ⟨_, hc2, hc3⟩)
          · exact hch hc
          · exact hnoerr ⟨hc2, hc3⟩

/-- C5 counterexample: with an empty channels string but a supplied
free-text query, a positive period and a well-formed end date,
`youtube_search` still raises a validation error, although the claim's
condition for raising (no identifiers and no query, or an inconsistent
window) does not hold. -/
theorem youtube_search_requires_channels_despite_query :
    youtube_search [] 0 0 fetchOkEmpty "" "2024-01-01" (some "news")
        3 none = .error (.valueError "No channels specified")
      ∧ truthyStr (some "news") = true
      ∧ parseYMD "2024-01-01" ≠ none
      ∧ ¬ ((3 : Int) ≤ 0) :=
  ⟨rfl, rfl, by decide, by decide⟩

/-- Witness for the amended C5 at a concrete input: `period_days = 1`
with users supplied makes the X validator raise, although 1 is a positive
period length (and permitted by the error message's own wording). -/
theorem validation_error_iff_witness :
    isErr (_validate_x_search_params (some "user1") none 1 none) = true :=
  (validation_error_iff.1 (some "user1") none 1 none).mpr
    (Or.inr (Or.inl (by decide)))

/-- Helper: `asyncio.gather` without `return_exceptions` errors whenever
some task errors. -/
theorem gatherE_err {α : Type} :
    ∀ (l : List (Except PyErr α)), (∃ x ∈ l, isErr x = true) →
      isErr (gatherE l) = true := by
  intro l
  induction l with
  | nil =>
    rintro ⟨x, hx, _⟩
    simp at hx
  | cons y ys ih =>
    rintro ⟨x, hx, hxe⟩
    rcases List.mem_cons.mp hx with rfl | hx'
    · cases x with
      | error e => simp [gatherE, isErr]
      | ok a => simp [isErr] at hxe
    · have htail := ih ⟨x, hx', hxe⟩
      cases y with
      | error e => simp [gatherE, isErr]
      | ok a =>
        simp only [gatherE]
        cases hg : gatherE ys with
        | error e => simp [isErr]
        | ok as =>
          rw [hg] at htail
          simp [isErr] at htail

/-- C6 counterexample: with two resolvable channels where `@chana`'s
fetch raises and `@chanb`'s succeeds with two videos, `youtube_search`
propagates the exception to the caller instead of returning `@chanb`'s
items (its own test `test_youtube_search_http_error` asserts this
propagation). -/
theorem youtube_search_propagates_single_failure :
    youtube_search [{ Youtube := "@chana", X := "" },
        { Youtube := "@chanb", X := "" }] 0 0 fetchFailA
        "chana,chanb" "2024-01-01" (some "q") 3 none
      = .error (.httpException 400 "Failed to fetch videos")
    ∧ fetchFailA "@chanb" "" = .ok [vidT, vidE] :=
  ⟨rfl, rfl⟩

/-- C6 amended: a single identifier's fetch failure aborts the whole
batch: when validation passes, resolution is non-empty and some created
task's fetch raises, `youtube_search` raises (`asyncio.gather` without
`return_exceptions`, re-raised by the `except` clauses), and the items of
successful sibling fetches are not returned. -/
theorem youtube_search_failure_aborts (data : List SourceRow)
    (now todayRD : Int) (fetch : String → String → Except PyErr (List Video))
    (channels end_date : String) (query : Option String)
    (period_days : Int) (char_cap : Option Nat) (encoded : String)
    (hch : channels ≠ "")
    (hlen : _filter_channels data ((pySplit (pyLower channels) ',').map
        (fun c => "@" ++ pyReplace c "@" "")) ≠ [])
    (hb : _build_youtube_search_url todayRD query period_days end_date
        = .ok encoded)
    (hfail : ∃ t ∈ _create_channel_tasks
        (_filter_channels data ((pySplit (pyLower channels) ',').map
          (fun c => "@" ++ pyReplace c "@" ""))) encoded,
        isErr (fetch t.1 t.2) = true) :
    isErr (youtube_search data now todayRD fetch channels end_date query
        period_days char_cap) = true := by
  simp only [youtube_search]
  rw [if_neg hch,
    if_neg (fun h0 => hlen (List.length_eq_zero.mp h0)), hb]
  dsimp only
  obtain ⟨t, ht, hfe⟩ := hfail
  have hge := gatherE_err _
    ⟨fetch t.1 t.2, List.mem_map_of_mem (fun t => fetch t.1 t.2) ht, hfe⟩
  cases hg : gatherE ((_create_channel_tasks
      (_filter_channels data ((pySplit (pyLower channels) ',').map
        (fun c => "@" ++ pyReplace c "@" ""))) encoded).map
      (fun t => fetch t.1 t.2)) with
  | error e => simp [isErr]
  | ok results =>
    rw [hg] at hge
    simp [isErr] at hge

/-- Witness for the amended C6 at a concrete input: one resolvable
channel whose fetch raises makes the whole search raise. -/
theorem youtube_search_failure_aborts_witness :
    isErr (youtube_search [{ Youtube := "@chana", X := "" }] 0 0 fetchFailA
        "chana" "2024-01-01" none 3 none) = true :=
  youtube_search_failure_aborts
    [{ Youtube := "@chana", X := "" }] 0 0 fetchFailA "chana" "2024-01-01"
    none 3 none "before%3A2024-01-01+after%3A2023-12-29"
    (by decide) (by decide) rfl
    ⟨("@chana",
      "https://www.youtube.com/@chana/search?hl=en&query=before%3A2024-01-01+after%3A2023-12-29"),
      by decide, rfl⟩

/-- C7: evaluation of `x_search` at the failing input of its own test
`test_x_search_rate_limit_handling`: the upstream fetch raises an HTTP
429 error, and `x_search` catches it and returns a normal empty result
instead of surfacing the failure (the test asserts
`pytest.raises(HTTPException)`). -/
theorem x_search_swallows_http_error :
    x_search [] 19700 fetch429 none (some "test") 3 none 1 = .ok [] := rfl

/-- C8 amended: `youtube_search` with a non-empty channels parameter that
resolves to zero registry rows returns the empty list and raises no
error, before any URL validation or fetch (even a failing fetch, a
malformed end date and a character cap are irrelevant); `x_search` with
users that resolve to zero registry rows does not short-circuit: it
proceeds to fetch with the date/query-only search string and returns that
fetch's (per-user-capped) outcome. -/
theorem empty_resolution_behavior :
    (∀ (data : List SourceRow) (now todayRD : Int)
      (fetch : String → String → Except PyErr (List Video))
      (channels end_date : String) (query : Option String)
      (period_days : Int) (char_cap : Option Nat),
      channels ≠ "" →
      _filter_channels data ((pySplit (pyLower channels) ',').map
        (fun c => "@" ++ pyReplace c "@" "")) = [] →
      youtube_search data now todayRD fetch channels end_date query
        period_days char_cap = .ok [])
    ∧ (∀ (data : List SourceRow) (todayRD : Int)
        (fetch : String → Nat → Except PyErr (List Tweet))
        (users query : Option String) (period_days : Int)
        (end_date : Option String) (max_tweets_per_user : Nat)
        (u search : String),
        _validate_x_search_params users query period_days end_date
          = .ok (some u) →
        u ≠ "" →
        _filter_users data (pySplit (pyLower u) ',') = [] →
        _build_x_search_query todayRD [] query period_days end_date
          = .ok search →
        x_search data todayRD fetch users query period_days end_date
          max_tweets_per_user
          = xFetchPhase fetch search max_tweets_per_user
              max_tweets_per_user) := by
  constructor
  · intro data now todayRD fetch channels end_date query period_days
      char_cap hch hres
    simp only [youtube_search]
    rw [if_neg hch, hres]
    rfl
  · intro data todayRD fetch users query period_days end_date
      max_tweets_per_user u search hv hu hres hbq
    simp only [x_search]
    rw [hv]
    dsimp only
    rw [if_pos hu, hres]
    simp only [List.map_nil]
    rw [hbq]
    dsimp only
    rfl

/-- C8 counterexample: with a supplied users parameter that matches no
registry row, `x_search` does not return the empty sequence: the
unrestricted date-only search is fetched and its tweet is returned. -/
theorem x_search_not_empty_on_zero_resolution :
    x_search [{ Youtube := "", X := "alice" }] 19700 fetchOneTweet
        (some "bob") none 3 none 5 = .ok [tweet1]
    ∧ _filter_users [{ Youtube := "", X := "alice" }]
        (pySplit (pyLower "bob") ',') = []
    ∧ ([tweet1] : List Tweet) ≠ [] :=
  ⟨rfl, rfl, by decide⟩

/-- Witness for the amended C8 at concrete inputs: an unresolvable
channel list yields `ok []` even with a failing fetch, a malformed end
date and a char cap; an unresolvable users list makes `x_search` behave
exactly as the fetch-and-recover phase on the date-only search. -/
theorem empty_resolution_behavior_witness :
    youtube_search [] 0 0 (fun _ _ => .error .timeoutError) "zzz" "bad"
        none (-5) (some 3) = .ok []
    ∧ x_search [{ Youtube := "", X := "alice" }] 19700 fetchOneTweet
        (some "bob") none 3 none 5
        = xFetchPhase fetchOneTweet "since:2023-12-6" 5 5 :=
  ⟨empty_resolution_behavior.1 [] 0 0 (fun _ _ => .error .timeoutError)
      "zzz" "bad" none (-5) (some 3) (by decide) rfl,
    empty_resolution_behavior.2 [{ Youtube := "", X := "alice" }] 19700
      fetchOneTweet (some "bob") none 3 none 5 "bob" "since:2023-12-6"
      rfl (by decide) rfl rfl⟩

/-- Helper: when every publish time parses, the embedded
`videos.sort(key=...); videos[::-1]` is the reversed stable ascending
sort. -/
theorem pySortReverse_ok (now : Int) (videos : List Video)
    (h : ∀ v ∈ videos, (_sort_by_publish_time now v).isSome) :
    pySortReverse now videos = .ok ((List.insertionSort
      (fun a b => sortKeyD now a ≤ sortKeyD now b) videos).reverse) := by
  have hany : videos.any (fun v => (_sort_by_publish_time now v).isNone)
      = false := by
    rw [List.any_eq_false]
    intro v hv
    cases hval : _sort_by_publish_time now v with
    | none =>
      have hcontra := h v hv
      rw [hval] at hcontra
      exact absurd hcontra (by simp)
    | some k => simp
  unfold pySortReverse
  rw [if_neg (by simp [hany])]

/-- Helper: with a falsy query and all publish times parseable, the merge
loop sorts each sublist descending and concatenates in channel order. -/
theorem processSublists_sorted (now : Int) (query : Option String)
    (hq : truthyStr query = false) :
    ∀ (results : List (List Video)),
      (∀ l ∈ results, ∀ v ∈ l, (_sort_by_publish_time now v).isSome) →
      processSublists now query results = .ok ((results.map (fun l =>
        (List.insertionSort
          (fun a b => sortKeyD now a ≤ sortKeyD now b) l).reverse)).flatten)
      := by
  intro results
  induction results with
  | nil => intro _; rfl
  | cons x xs ih =>
    intro hparse
    simp only [processSublists]
    rw [if_neg (by simp [hq]),
      pySortReverse_ok now x (hparse x (by simp)),
      ih (fun l hl v hv => hparse l (by simp [hl]) v hv)]
    simp [List.flatten_cons]

/-- Helper: with a truthy query, the merge loop keeps every sublist's
upstream order untouched. -/
theorem processSublists_untouched (now : Int) (query : Option String)
    (hq : truthyStr query = true) :
    ∀ (results : List (List Video)),
      processSublists now query results = .ok results.flatten := by
  intro results
  induction results with
  | nil => rfl
  | cons x xs ih =>
    simp only [processSublists]
    rw [if_pos (by simp [hq]), ih]
    simp [List.flatten_cons]

/-- Helper: the reversed ascending-sorted sublist is ordered by the
normalized publish timestamp descending. -/
theorem insertionSort_reverse_sortedDesc (now : Int) (l : List Video) :
    ((List.insertionSort
      (fun a b => sortKeyD now a ≤ sortKeyD now b) l).reverse).Pairwise
      (fun a b => sortKeyD now b ≤ sortKeyD now a) := by
  haveI : IsTotal Video (fun a b => sortKeyD now a ≤ sortKeyD now b) :=
    ⟨fun a b => Int.le_total _ _⟩
  haveI : IsTrans Video (fun a b => sortKeyD now a ≤ sortKeyD now b) :=
    ⟨fun _ _ _ hab hbc => le_trans hab hbc⟩
  exact List.pairwise_reverse.mpr (List.sorted_insertionSort _ l)

/-- C9: when every publish time parses (relative expressions with the
stream prefix stripped, interpreted against the fetch time `now`), a
query-less video search sorts each channel sublist by publish time
descending before concatenating the sublists in channel order, while a
truthy query leaves every sublist's upstream order untouched. -/
theorem process_video_results_freshness (now : Int)
    (results : List (List Video)) (query : Option String)
    (hparse : ∀ l ∈ results, ∀ v ∈ l, (_sort_by_publish_time now v).isSome) :
    (truthyStr query = false →
      _process_video_results now results query none
        = .ok ((results.map (fun l => (List.insertionSort
            (fun a b => sortKeyD now a ≤ sortKeyD now b) l).reverse)).flatten)
      ∧ ∀ l ∈ results,
          ((List.insertionSort
            (fun a b => sortKeyD now a ≤ sortKeyD now b) l).reverse).Pairwise
            (fun a b => sortKeyD now b ≤ sortKeyD now a))
    ∧ (truthyStr query = true →
      _process_video_results now results query none = .ok results.flatten)
      := by
  constructor
  · intro hq
    refine ⟨?_, fun l _ => insertionSort_reverse_sortedDesc now l⟩
    simp only [_process_video_results]
    rw [processSublists_sorted now query hq results hparse]
    rfl
  · intro hq
    simp only [_process_video_results]
    rw [processSublists_untouched now query hq results]
    rfl

/-- Witness for C9 at the spec's example: a sublist with "1 day ago"
before "2 hours ago" upstream and no query is reordered with "2 hours
ago" first. -/
theorem process_video_results_freshness_witness :
    (truthyStr none = false →
      _process_video_results 1000000 [[vidT, vidH]] none none
        = .ok (([[vidT, vidH]].map (fun l => (List.insertionSort
            (fun a b => sortKeyD 1000000 a ≤ sortKeyD 1000000 b)
            l).reverse)).flatten)
      ∧ ∀ l ∈ [[vidT, vidH]],
          ((List.insertionSort
            (fun a b => sortKeyD 1000000 a ≤ sortKeyD 1000000 b)
            l).reverse).Pairwise
            (fun a b => sortKeyD 1000000 b ≤ sortKeyD 1000000 a))
    ∧ _process_video_results 1000000 [[vidT, vidH]] none none
        = .ok [vidH, vidT] :=
  ⟨(process_video_results_freshness 1000000 [[vidT, vidH]] none
      (by decide)).1, rfl⟩

/-- C10: every post returned by `substack_search` is free content.  A
post whose metadata marks its audience as `"only_paid"` is skipped by the
per-post processing for every parser, content converter and fetch
outcome, and every returned post arises from some fetched post that the
per-post processing accepted — hence from one whose audience is not
`"only_paid"`. -/
theorem substack_excludes_paid (parseIso : String → Option Int)
    (htmlToText : String → String)
    (fetchPosts : String → Except PyErr (List RawPost))
    (publications : Option String) :
    (∀ (pubName : String) (post : RawPost) (md : PostMeta),
      post.meta = .ok md → md.audience = some "only_paid" →
      processPost parseIso htmlToText pubName post = none)
    ∧ (∀ sp ∈ substack_search parseIso htmlToText fetchPosts publications,
        ∃ pub posts post, fetchPosts pub = .ok posts ∧ post ∈ posts
          ∧ processPost parseIso htmlToText pub post = some sp
          ∧ ∀ md, post.meta = .ok md → md.audience ≠ some "only_paid") := by
  have hskip : ∀ (pubName : String) (post : RawPost) (md : PostMeta),
      post.meta = .ok md → md.audience = some "only_paid" →
      processPost parseIso htmlToText pubName post = none := by
    intro pubName post md hmeta haud
    unfold processPost
    rw [hmeta]
    dsimp only
    cases hds : pyOrStr md.post_date md.published_at with
    | none => rfl
    | some ds =>
      by_cases hemp : ds = ""
      · subst hemp
        rfl
      · rw [show truthyStr (some ds) = true by simp [truthyStr, hemp]]
        dsimp only
        cases hpi : parseIso (pyReplace ds "Z" "+00:00") with
        | none => rfl
        | some ts =>
          dsimp only
          rw [if_pos haud]
  refine ⟨hskip, ?_⟩
  intro sp hsp
  unfold substack_search at hsp
  obtain ⟨pub, hpub, hmem⟩ := List.mem_flatMap.mp hsp
  cases hf : fetchPosts pub with
  | error e => rw [hf] at hmem; simp at hmem
  | ok posts =>
    rw [hf] at hmem
    obtain ⟨post, hpost, hproc⟩ := List.mem_filterMap.mp hmem
    refine ⟨pub, posts, post, hf, hpost, hproc, ?_⟩
    intro md hmeta haud
    rw [hskip pub post md hmeta haud] at hproc
    exact Option.noConfusion hproc

/-- Witness for C10 at a concrete input: a post marked `only_paid` with a
valid date is skipped by the per-post processing. -/
theorem substack_excludes_paid_witness :
    processPost (fun _ => some 0) (fun h => h) "pub"
      { slug := "s", url := "u",
        meta := .ok
          { idVal := some 1, post_date := some "2024-01-01",
            published_at := none, audience := some "only_paid",
            title := some "T", subtitle := none, description := none,
            preview_description := none, body_html := none } } = none :=
  (substack_excludes_paid (fun _ => some 0) (fun h => h)
      (fun _ => .ok []) none).1 "pub"
    { slug := "s", url := "u",
      meta := .ok
        { idVal := some 1, post_date := some "2024-01-01",
          published_at := none, audience := some "only_paid",
          title := some "T", subtitle := none, description := none,
          preview_description := none, body_html := none } }
    { idVal := some 1, post_date := some "2024-01-01",
      published_at := none, audience := some "only_paid",
      title := some "T", subtitle := none, description := none,
      preview_description := none, body_html := none }
    rfl rfl

/-- Helper: the single-flight invariant holds initially. -/
theorem cacheInv_init {V : Type} (produce : V) :
    CacheInv produce (initState V) :=
  ⟨fun _ => rfl, fun h => absurd rfl h, fun h => absurd rfl h,
    fun _ hv => Option.noConfusion hv,
    fun _ _ h => Phase.noConfusion h⟩

/-- Helper: every atomic caller action preserves the single-flight
invariant. -/
theorem cacheInv_step {V : Type} {produce : V} {s s' : CState V}
    (hinv : CacheInv produce s) (hstep : CacheStep produce s s') :
    CacheInv produce s' := by
  obtain ⟨h1, h2, h3, h4, h5⟩ := hinv
  cases hstep with
  | hit i v hc hr =>
    refine ⟨h1, h2, h3, h4, fun j w hj => ?_⟩
    dsimp only at hj ⊢
    by_cases hji : j = i
    · subst hji
      rw [Function.update_same] at hj
      have hwv : w = v := (Phase.done.injEq _ _ ▸ hj).symm
      have hvp := h4 v hr
      exact ⟨hwv.trans hvp, hvp ▸ hr⟩
    · rw [Function.update_noteq hji] at hj
      exact h5 j w hj
  | produceStart i hc hr hf =>
    refine ⟨fun h => absurd h.1 (by simp), ?_, ?_, h4, ?_⟩
    · intro _
      have h0 : s.runs = 0 := h1 ⟨hf, hr⟩
      simp [h0]
    · intro h
      exact absurd hr h
    · intro j w hj
      dsimp only at hj
      by_cases hji : j = i
      · subst hji
        rw [Function.update_same] at hj
        exact Phase.noConfusion hj
      · rw [Function.update_noteq hji] at hj
        obtain ⟨_, habs⟩ := h5 j w hj
        rw [hr] at habs
        exact Option.noConfusion habs
  | waitStart i j hc hr hf =>
    refine ⟨h1, h2, h3, h4, fun k w hk => ?_⟩
    dsimp only at hk ⊢
    by_cases hki : k = i
    · subst hki
      rw [Function.update_same] at hk
      exact Phase.noConfusion hk
    · rw [Function.update_noteq hki] at hk
      exact h5 k w hk
  | produceFinish i hc hf =>
    refine ⟨fun h => Option.noConfusion h.2, fun h => absurd rfl h,
      fun _ => h2 (by rw [hf]; exact fun hn => Option.noConfusion hn),
      fun v hv => ((Option.some.injEq _ _ ▸ hv)).symm, fun j w hj => ?_⟩
    dsimp only at hj ⊢
    by_cases hji : j = i
    · subst hji
      rw [Function.update_same] at hj
      exact ⟨((Phase.done.injEq _ _ ▸ hj)).symm, rfl⟩
    · rw [Function.update_noteq hji] at hj
      exact ⟨(h5 j w hj).1, rfl⟩
  | wake i v hc hr =>
    refine ⟨h1, h2, h3, h4, fun j w hj => ?_⟩
    dsimp only at hj ⊢
    by_cases hji : j = i
    · subst hji
      rw [Function.update_same] at hj
      have hwv : w = v := (Phase.done.injEq _ _ ▸ hj).symm
      have hvp := h4 v hr
      exact ⟨hwv.trans hvp, hvp ▸ hr⟩
    · rw [Function.update_noteq hji] at hj
      exact h5 j w hj

/-- Helper: the single-flight invariant holds in every reachable
state. -/
theorem cacheInv_reachable {V : Type} (produce : V) (s : CState V)
    (h : CacheReachable produce s) : CacheInv produce s := by
  unfold CacheReachable at h
  induction h with
  | refl => exact cacheInv_init produce
  | tail _ hstep ih => exact cacheInv_step ih hstep

/-- C3 (modelled from the spec, `lib/cache` being absent from the source
tree): in any interleaving of any number of callers of the cached
function on one key, once all `N` callers have completed, the producer
has run exactly once and every caller received the producer's value. -/
theorem cache_single_flight {V : Type} (produce : V) (N : Nat)
    (s : CState V) (hreach : CacheReachable produce s) (hN : 0 < N)
    (hdone : ∀ i, i < N → ∃ v, s.caller i = Phase.done v) :
    s.runs = 1 ∧ ∀ i v, s.caller i = Phase.done v → v = produce := by
  obtain ⟨h1, h2, h3, h4, h5⟩ := cacheInv_reachable produce s hreach
  obtain ⟨v, hv⟩ := hdone 0 hN
  obtain ⟨hvp, hres⟩ := h5 0 v hv
  refine ⟨h3 (by rw [hres]; exact fun hn => Option.noConfusion hn),
    fun i w hw => (h5 i w hw).1⟩

/-- Witness for C3 at a concrete run: one caller starts the producer and
finishes; in the final state the producer ran once and the caller holds
its value. -/
theorem cache_single_flight_witness :
    cacheWitnessFinal.runs = 1
      ∧ ∀ i v, cacheWitnessFinal.caller i = Phase.done v → v = 42 := by
  have step1 : CacheStep 42 (initState Nat) cacheWitnessMid :=
    CacheStep.produceStart (initState Nat) 0 rfl rfl rfl
  have step2 : CacheStep 42 cacheWitnessMid cacheWitnessFinal :=
    CacheStep.produceFinish cacheWitnessMid 0 rfl rfl
  refine cache_single_flight 42 1 cacheWitnessFinal
    (Relation.ReflTransGen.tail (Relation.ReflTransGen.tail .refl step1)
      step2) (by decide) ?_
  intro i hi
  have h0 : i = 0 := by omega
  subst h0
  exact ⟨42, rfl⟩

end IndyNews
